import Mathlib

/-!
Verification development for the couchpotatoe home-automation bridge.

The Go sources are embedded shallowly:

* `musiccast/musiccast.go` — the MusicCast event-reconciliation engine:
  `Status`, `Playback`, `Device`, `processEvent`, `diffState` (specialised to
  the concrete `Device` struct, as Go reflection walks it), `updateIn`
  (JSON re-marshal merge, modelled as typed field overwrite), `decodeResponse`,
  and the UDP dispatch step of `ListenAndDispatch`.
* `loxone` package (the current revision bundled in the repository) — the
  Miniserver codec: `decodeUUID`, `decodeTextEvent(Table)`,
  `decodeDaytimerEntry / decodeDaytimerEventTable`, `decodeMsgText`, the
  response-matching logic of `call`, and `Authenticate`'s HMAC-SHA1 command
  construction (SHA-1 and HMAC are implemented in full, following the
  Go standard library the source calls into).

Bytes are `Nat` values below 256, byte strings are `List Nat`.  Go `float64`
fields never take part in arithmetic in the source, so they are carried as
their raw IEEE-754 little-endian bit patterns (`Nat`).  Go panics are modelled
as explicit `panicked` result constructors (or `panic:`-prefixed errors in
decoder results), since several properties hinge on panic versus returned
error.
-/

/-- Scalar JSON-ish values as they appear in reconciliation diffs:
Go `diffState` returns `reflect` scalars (string, uint64, int64, bool). -/
inductive JVal where
  | str (s : String)
  | num (n : Int)
  | bool (b : Bool)
deriving DecidableEq, Repr

/-- A diff entry value: either a scalar field change or a changed sub-record
(`diffState`'s struct case). The `Device` struct nests exactly one level. -/
inductive DiffVal where
  | scalar (v : JVal)
  | sub (fields : List (String × JVal))
deriving DecidableEq, Repr

/-- `type Status struct` of musiccast.go (json tags: input, power, sleep,
volume, mute, max_volume). uint8 fields carried as `Nat`; no source path in
the claims exercises 8-bit overflow. -/
structure Status where
  input : String
  power : String
  sleep : Nat
  volume : Nat
  mute : Bool
  maxVolume : Nat
deriving DecidableEq, Repr

/-- `type Playback struct` of musiccast.go (json tags: input, playback,
repeat, shuffle, play_time, total_time, artist, album, albumart_url, track).
int32 fields carried as `Int`. -/
structure Playback where
  input : String
  playback : String
  «repeat» : String
  shuffle : String
  play_time : Int
  total_time : Int
  artist : String
  album : String
  albumart_url : String
  track : String
deriving DecidableEq, Repr

/-- `type Device struct` of musiccast.go. The opaque handles
(`httpClient`, `avTransport`, `mutex`) are pointers, for which `diffState`
returns nil, and `extendedControlBaseURL` is a `url.URL` whose fields carry
no json tags, so none of them can ever contribute to a diff; the URL is kept
as an opaque string and the pointers are dropped. -/
structure Device where
  id : String
  model : String
  name : String
  status : Status
  playback : Playback
  extendedControlBaseURL : String
deriving DecidableEq, Repr

/-- The json-tagged scalar fields of `Status`, in Go struct order, with the
value extraction `diffState` performs (`reflect` kinds String/Uint/Bool). -/
def statusFields : List (String × (Status → JVal)) :=
  [("input", fun s => JVal.str s.input),
   ("power", fun s => JVal.str s.power),
   ("sleep", fun s => JVal.num s.sleep),
   ("volume", fun s => JVal.num s.volume),
   ("mute", fun s => JVal.bool s.mute),
   ("max_volume", fun s => JVal.num s.maxVolume)]

/-- The json-tagged scalar fields of `Playback`, in Go struct order. -/
def playbackFields : List (String × (Playback → JVal)) :=
  [("input", fun p => JVal.str p.input),
   ("playback", fun p => JVal.str p.playback),
   ("repeat", fun p => JVal.str p.«repeat»),
   ("shuffle", fun p => JVal.str p.shuffle),
   ("play_time", fun p => JVal.num p.play_time),
   ("total_time", fun p => JVal.num p.total_time),
   ("artist", fun p => JVal.str p.artist),
   ("album", fun p => JVal.str p.album),
   ("albumart_url", fun p => JVal.str p.albumart_url),
   ("track", fun p => JVal.str p.track)]

/-- `diffState`'s struct case on a record of scalar fields: keep each field
whose value changed (keyed by its json tag) with the new value. -/
def diffFields {σ : Type} (fields : List (String × (σ → JVal))) (a b : σ) :
    List (String × JVal) :=
  (fields.filter (fun f => decide (f.2 a ≠ f.2 b))).map (fun f => (f.1, f.2 b))

/-- `diffState` on two `Status` values. -/
def diffStatus (a b : Status) : List (String × JVal) :=
  diffFields statusFields a b

/-- `diffState` on two `Playback` values. -/
def diffPlayback (a b : Playback) : List (String × JVal) :=
  diffFields playbackFields a b

/-- `diffState` on two `Device` values: scalar fields `id`, `model`, `name`
(json tags "id", "model", "name"), then the `status` / `playback` sub-structs
(tags "status", "playback"), included only when their own diff is non-empty.
`extendedControlBaseURL` has no json tag (and `url.URL`'s fields none either)
and the remaining fields are pointers, so they never appear. -/
def diffDevice (a b : Device) : List (String × DiffVal) :=
  (if a.id = b.id then [] else [("id", DiffVal.scalar (JVal.str b.id))]) ++
  (if a.model = b.model then [] else [("model", DiffVal.scalar (JVal.str b.model))]) ++
  (if a.name = b.name then [] else [("name", DiffVal.scalar (JVal.str b.name))]) ++
  (if diffStatus a.status b.status = [] then []
   else [("status", DiffVal.sub (diffStatus a.status b.status))]) ++
  (if diffPlayback a.playback b.playback = [] then []
   else [("playback", DiffVal.sub (diffPlayback a.playback b.playback))])

/-- The `main` sub-map of a MusicCast UDP event, after `json.Unmarshal` into
`map[string]interface{}`: the two refetch flags, the inline fields that match
`Status` json tags (typed), and any other keys (silently dropped by
`updateIn`'s marshal/unmarshal round trip). -/
structure MainEvent where
  status_updated : Option Bool
  signal_info_updated : Option Bool
  input : Option String
  power : Option String
  sleep : Option Nat
  volume : Option Nat
  mute : Option Bool
  max_volume : Option Nat
  unknown : List String
deriving DecidableEq, Repr

/-- The `play_queue` sub-map of a `netusb` event fragment. -/
structure PlayQueueEvent where
  updated : Option Bool
  unknown : List String
deriving DecidableEq, Repr

/-- The `netusb` sub-map of a MusicCast UDP event. -/
structure NetusbEvent where
  play_info_updated : Option Bool
  recent_updated : Option Bool
  play_queue : Option PlayQueueEvent
  input : Option String
  playback : Option String
  «repeat» : Option String
  shuffle : Option String
  play_time : Option Int
  total_time : Option Int
  artist : Option String
  album : Option String
  albumart_url : Option String
  track : Option String
  unknown : List String
deriving DecidableEq, Repr

/-- A parsed MusicCast UDP datagram (`type event map[string]interface{}`):
optional `device_id`, optional `main` / `netusb` sub-maps, and the remaining
top-level keys. -/
structure Event where
  device_id : Option String
  main : Option MainEvent
  netusb : Option NetusbEvent
  extra : List String
deriving DecidableEq, Repr

/-- `updateIn(&d.status, main)`: marshal the remaining map and unmarshal into
the typed record — fields present in the map overwrite, everything else is
kept, unknown keys are dropped at the type boundary. -/
def mergeStatus (s : Status) (m : MainEvent) : Status :=
  { input := m.input.getD s.input
    power := m.power.getD s.power
    sleep := m.sleep.getD s.sleep
    volume := m.volume.getD s.volume
    mute := m.mute.getD s.mute
    maxVolume := m.max_volume.getD s.maxVolume }

/-- `updateIn(&d.playback, netusb)`, same JSON merge semantics. -/
def mergePlayback (p : Playback) (n : NetusbEvent) : Playback :=
  { input := n.input.getD p.input
    playback := n.playback.getD p.playback
    «repeat» := n.«repeat».getD p.«repeat»
    shuffle := n.shuffle.getD p.shuffle
    play_time := n.play_time.getD p.play_time
    total_time := n.total_time.getD p.total_time
    artist := n.artist.getD p.artist
    album := n.album.getD p.album
    albumart_url := n.albumart_url.getD p.albumart_url
    track := n.track.getD p.track }

/-- Outcome of `processEvent` (and of one iteration of the UDP listener):
either a Go panic, or the updated device together with the message published
to the broker (topic and diff), if any, and the returned error, if any. -/
inductive PEResult where
  | panicked (msg : String)
  | ok (d : Device) (pub : Option (String × List (String × DiffVal))) (err : Option String)
deriving DecidableEq, Repr

/-- The broker publication of a `PEResult`, if it completed and published. -/
def pubDiff : PEResult → Option (String × List (String × DiffVal))
  | PEResult.panicked _ => none
  | PEResult.ok _ p _ => p

/-- Whether a `PEResult` completed without panicking. -/
def PEResult.isOk : PEResult → Bool
  | PEResult.panicked _ => false
  | PEResult.ok _ _ _ => true

/-- `(*Device) processEvent` of musiccast.go.  `fetchedStatus` and
`fetchedPlayback` stand for the bodies the device would return to the
`main/getStatus` / `netusb/getPlayInfo` refetch GETs (only consulted when the
corresponding `*_updated` flag is `true`).  Mirrors the source:
a `device_id` mismatch (or absence) panics; the `main` sub-map is folded into
`status` (refetch first, then inline merge), `netusb` into `playback`; the
diff of the device snapshot against the result is published when non-empty;
unconsumed top-level keys yield the "unhandled fragment" error.  (The
source's `updateIn` always returns nil thanks to an inner `err` shadowing
its named return, so only the fragment error can survive.) -/
def processEvent (d : Device) (e : Event) (fetchedStatus : Status)
    (fetchedPlayback : Playback) : PEResult :=
  if e.device_id ≠ some d.id then PEResult.panicked "unmatched device id"
  else
    let old := d
    let d1 :=
      match e.main with
      | none => d
      | some m =>
        let dA := if m.status_updated = some true then { d with status := fetchedStatus } else d
        { dA with status := mergeStatus dA.status m }
    let d2 :=
      match e.netusb with
      | none => d1
      | some n =>
        let dB := if n.play_info_updated = some true then { d1 with playback := fetchedPlayback } else d1
        { dB with playback := mergePlayback dB.playback n }
    let diff := diffDevice old d2
    PEResult.ok d2
      (if diff = [] then none else some (d2.id, diff))
      (if e.extra = [] then none else some "unhandled fragment in MusicCast event")

/-- One iteration of the `ListenAndDispatch` loop body after
`json.Unmarshal` succeeded: `payload["device_id"].(string)` (a bare type
assertion — panics when the key is absent), indexing `availableDevices`
(yields a nil `*Device` for unknown ids, whose first field access in
`processEvent` dereferences nil), then `d.processEvent(payload)`. -/
def dispatch (registry : List (String × Device)) (e : Event) (fetchedStatus : Status)
    (fetchedPlayback : Playback) : PEResult :=
  match e.device_id with
  | none => PEResult.panicked "interface conversion: interface {} is nil, not string"
  | some did =>
    match List.lookup did registry with
    | none => PEResult.panicked "invalid memory address or nil pointer dereference"
    | some d => processEvent d e fetchedStatus fetchedPlayback

/-- Scalar JSON values of a decoded MusicCast HTTP envelope
(`map[string]interface{}` after `json.Unmarshal`); compound values are
lumped into `other`, the claims never inspect them. -/
inductive RVal where
  | num (n : Int)
  | str (s : String)
  | bool (b : Bool)
  | other
deriving DecidableEq, Repr

/-- Result of `decodeResponse`: Go panic (bare `.(float64)` assertion on a
missing or non-numeric `response_code`), or the data map and error returned. -/
inductive DRResult where
  | panicked (msg : String)
  | ok (data : List (String × RVal)) (err : Option String)
deriving DecidableEq, Repr

/-- `delete(data, "response_code")` on the decoded map (modelled as an
association list; JSON unmarshalling into a Go map leaves keys unique). -/
def eraseKey {β : Type} (k : String) (l : List (String × β)) : List (String × β) :=
  l.filter (fun p => p.1 ≠ k)

/-- `decodeResponse` of musiccast.go, after the JSON decode step:
assert `data["response_code"]` is a number (else panic), delete the key,
and return the remaining map — with an extended-control error when the code
is non-zero. -/
def decodeResponse (data : List (String × RVal)) : DRResult :=
  match List.lookup "response_code" data with
  | some (RVal.num code) =>
    DRResult.ok (eraseKey "response_code" data)
      (if code = 0 then none else some "extended control error")
  | some _ => DRResult.panicked "interface conversion: interface {} is not float64"
  | none => DRResult.panicked "interface conversion: interface {} is nil, not float64"

/-! ## Loxone (Miniserver) codec -/

deriving instance DecidableEq for Except

/-- `binary.LittleEndian` reassembly of a byte list: the first byte is the
least significant. -/
def leNat (bs : List Nat) : Nat :=
  bs.foldr (fun b acc => b + 256 * acc) 0

/-- Big-endian reassembly (used by SHA-1's word layout). -/
def beNat (bs : List Nat) : Nat :=
  bs.foldl (fun acc b => acc * 256 + b) 0

/-- Two's-complement reading of a 32-bit unsigned value as Go `int32`. -/
def toI32 (u : Nat) : Int :=
  if u < 2147483648 then (u : Int) else (u : Int) - 4294967296

/-- Lowercase hexadecimal digit, as Go's `fmt` / `encoding/hex` produce. -/
def hexDigit (n : Nat) : Char :=
  if n < 10 then Char.ofNat (48 + n) else Char.ofNat (87 + n)

/-- `fmt.Sprintf("%0*x", width, n)` for values below `16^width`: exactly
`width` lowercase hex digits, most significant first. -/
def hexPad : Nat → Nat → String
  | 0, _ => ""
  | w + 1, n => hexPad w (n / 16) ++ String.mk [hexDigit (n % 16)]

/-- `hex.EncodeToString`: two lowercase digits per byte. -/
def hexEncLower : List Nat → String
  | [] => ""
  | b :: rest => String.mk [hexDigit (b / 16), hexDigit (b % 16)] ++ hexEncLower rest

/-- `decodeUUID` of the loxone package: 16 wire bytes read as a little-endian
u32, two little-endian u16s and 8 raw bytes, rendered through
`"%08x-%04x-%04x-%02x%02x%02x%02x%02x%02x%02x%02x"` — note the final eight
bytes form one undivided hex run after the third dash. -/
def decodeUUID (msg : List Nat) : Except String String :=
  if msg.length ≠ 16 then Except.error "invalid uuid length"
  else
    let data1 := leNat (msg.take 4)
    let data2 := leNat ((msg.drop 4).take 2)
    let data3 := leNat ((msg.drop 6).take 2)
    let data4 := msg.drop 8
    Except.ok (hexPad 8 data1 ++ "-" ++ hexPad 4 data2 ++ "-" ++ hexPad 4 data3 ++ "-"
      ++ String.join (data4.map (fun b => hexPad 2 b)))

/-- The text-table entry stride of `decodeTextEventTable`:
`i += textLength + textLength%4 + 36`. -/
def advance (textLen : Nat) : Nat :=
  36 + textLen + textLen % 4

/-- `decodeTextEvent`: UUID(16) ‖ icon-UUID(16) ‖ u32 length ‖ text bytes.
A declared length beyond the remaining buffer truncates the text to the
remainder and errors.  Fewer than 36 bytes make the Go slice expressions
panic (modelled as a `panic:` error).  Go strings are byte strings, so the
text is returned as its byte list (`len` agrees). -/
def decodeTextEvent (msg : List Nat) : Except String (String × String × List Nat) :=
  if msg.length < 36 then Except.error "panic: slice bounds out of range"
  else
    match decodeUUID (msg.take 16), decodeUUID ((msg.drop 16).take 16) with
    | Except.error e, _ => Except.error e
    | _, Except.error e => Except.error e
    | Except.ok uuid, Except.ok uuidIcon =>
      let textLength := leNat ((msg.drop 32).take 4)
      if textLength > msg.length - 36 then
        Except.error "invalid text event"
      else
        Except.ok (uuid, uuidIcon, (msg.drop 36).take textLength)

/-- The `decodeTextEventTable` loop, driven by a fuel argument so the
definition stays kernel-reducible; every iteration consumes at least 36
bytes, so fuel equal to the buffer length is never exhausted. -/
def decodeTextEventTableFuel : Nat → List Nat → List (String × List Nat) × Option String
  | _, [] => ([], none)
  | 0, _ :: _ => ([], none)
  | fuel + 1, b :: bs =>
    match decodeTextEvent (b :: bs) with
    | Except.error e => ([], some e)
    | Except.ok (uuid, _, text) =>
      let rest := decodeTextEventTableFuel fuel ((b :: bs).drop (advance text.length))
      ((uuid, text) :: rest.1, rest.2)

/-- `decodeTextEventTable`: concatenated text entries, each consuming
`advance (len text)` bytes; on a failed entry the partially decoded table is
returned together with the error, matching the Go `return table, err`. -/
def decodeTextEventTable (msg : List Nat) : List (String × List Nat) × Option String :=
  decodeTextEventTableFuel msg.length msg

/-- `type DayTimerEntry struct`: four little-endian int32 fields and the
f64 value, which is carried as its raw 64-bit pattern. -/
structure DayTimerEntry where
  mode : Int
  «from» : Int
  «to» : Int
  needActivate : Int
  val : Nat
deriving DecidableEq, Repr

/-- The Go zero value of `DayTimerEntry` (what `make` pre-fills). -/
def zeroDayTimerEntry : DayTimerEntry :=
  { mode := 0, «from» := 0, «to» := 0, needActivate := 0, val := 0 }

/-- `type DayTimerEvent struct`. -/
structure DayTimerEvent where
  defaultVal : Nat
  entries : List DayTimerEntry
deriving DecidableEq, Repr

/-- `decodeDaytimerEntry`: a 24-byte record `{i32 mode, i32 from, i32 to,
i32 need_activate, f64 value}`, all little-endian. -/
def decodeDaytimerEntry (msg : List Nat) : Except String DayTimerEntry :=
  if msg.length ≠ 24 then Except.error "invalid daytimer entry length"
  else
    Except.ok
      { mode := toI32 (leNat (msg.take 4))
        «from» := toI32 (leNat ((msg.drop 4).take 4))
        «to» := toI32 (leNat ((msg.drop 8).take 4))
        needActivate := toI32 (leNat ((msg.drop 12).take 4))
        val := leNat ((msg.drop 16).take 8) }

/-- Fuel-driven chunking worker (fuel bounded by the list length). -/
def chunksExactFuel (n : Nat) : Nat → List Nat → List (List Nat)
  | 0, _ => []
  | fuel + 1, l =>
    if n = 0 ∨ l.length < n then []
    else l.take n :: chunksExactFuel n fuel (l.drop n)

/-- Split a list into chunks of exactly `n` elements (any shorter tail is
dropped; the decoders only call this on exact multiples). -/
def chunksExact (n : Nat) (l : List Nat) : List (List Nat) :=
  chunksExactFuel n l.length l

/-- `Except`-valued `mapM` over a list (error of the first failing element). -/
def mapExcept {α β : Type} (f : α → Except String β) : List α → Except String (List β)
  | [] => Except.ok []
  | x :: xs =>
    match f x, mapExcept f xs with
    | Except.error e, _ => Except.error e
    | _, Except.error e => Except.error e
    | Except.ok y, Except.ok ys => Except.ok (y :: ys)

/-- `decodeDaytimerEventTable`: each block is UUID(16) ‖ f64 default ‖
i32 `nr_entries` ‖ the entry records.  The source pre-sizes the slice with
`make([]DayTimerEntry, nrEntries)` and then `append`s each decoded entry, so
the stored event carries `nrEntries` zero entries followed by the decoded
ones.  A negative count makes `make` panic; running past the buffer makes
the slice expressions panic (both modelled as `panic:` errors). -/
def decodeDaytimerEventTableFuel : Nat → List Nat →
    Except String (List (String × DayTimerEvent))
  | _, [] => Except.ok []
  | 0, _ :: _ => Except.ok []
  | fuel + 1, b :: bs =>
    let msg := b :: bs
    if msg.length < 28 then Except.error "panic: slice bounds out of range"
    else
      match decodeUUID (msg.take 16) with
      | Except.error e => Except.error e
      | Except.ok uuid =>
        let defaultVal := leNat ((msg.drop 16).take 8)
        let nr := toI32 (leNat ((msg.drop 24).take 4))
        if nr < 0 then Except.error "panic: makeslice: len out of range"
        else if msg.length < 28 + 24 * nr.toNat then
          Except.error "panic: slice bounds out of range"
        else
          match mapExcept decodeDaytimerEntry
              (chunksExact 24 ((msg.drop 28).take (24 * nr.toNat))) with
          | Except.error e => Except.error e
          | Except.ok decoded =>
            match decodeDaytimerEventTableFuel fuel (msg.drop (28 + 24 * nr.toNat)) with
            | Except.error e => Except.error e
            | Except.ok rest =>
              Except.ok ((uuid,
                { defaultVal := defaultVal
                  entries := List.replicate nr.toNat zeroDayTimerEntry ++ decoded }) :: rest)

/-- `decodeDaytimerEventTable` proper, with fuel instantiated to the buffer
length (each block consumes at least 28 bytes, so fuel never runs out). -/
def decodeDaytimerEventTable (msg : List Nat) :
    Except String (List (String × DayTimerEvent)) :=
  decodeDaytimerEventTableFuel msg.length msg

/-- `strconv.Atoi`: base-10 integer with an optional leading sign; empty
strings, stray characters and a bare sign are syntax errors.  (Range errors
cannot influence any property below — every failure of `Atoi` is swallowed
by the same shadowed variable as a non-200 code.) -/
def atoiDigits (acc : Nat) : List Char → Except String Nat
  | [] => Except.ok acc
  | c :: cs =>
    if c.toNat < 48 ∨ 57 < c.toNat then Except.error "invalid syntax"
    else atoiDigits (acc * 10 + (c.toNat - 48)) cs

/-- `strconv.Atoi`, sign handling and emptiness checks. -/
def atoi (s : String) : Except String Int :=
  match s.data with
  | [] => Except.error "invalid syntax"
  | c :: cs =>
    if c = '+' then
      match cs with
      | [] => Except.error "invalid syntax"
      | _ => (atoiDigits 0 cs).map (fun n => (n : Int))
    else if c = '-' then
      match cs with
      | [] => Except.error "invalid syntax"
      | _ => (atoiDigits 0 cs).map (fun n => -(n : Int))
    else (atoiDigits 0 (c :: cs)).map (fun n => (n : Int))

/-- A parsed `{"LL":{...}}` envelope: the `Code` and `control` strings and
the `value` payload (opaque to the matching logic). -/
structure Envelope (α : Type) where
  code : String
  control : String
  value : α
deriving DecidableEq, Repr

/-- `decodeMsgText` of the loxone package, after `json.Unmarshal`:
`code, err := strconv.Atoi(data["Code"].(string))` redeclares `err` inside
the block, shadowing the named return value — so an unparsable or non-200
code leaves the *returned* error nil while `cmd` and `val` stay empty.
Returns `(cmd, val, err)` as the source does. -/
def decodeMsgText {α : Type} (env : Envelope α) : String × Option α × Option String :=
  match atoi env.code with
  | Except.error _ => ("", none, none)
  | Except.ok code =>
    if code = 200 then (env.control, some env.value, none)
    else ("", none, none)

/-- The response slot payload (`type payload struct`). -/
structure Payload (α : Type) where
  cmd : String
  err : Option String
  data : Option α
deriving DecidableEq, Repr

/-- `strings.HasPrefix` on character lists. -/
def hasPrefixL : List Char → List Char → Bool
  | _, [] => true
  | [], _ :: _ => false
  | a :: as, b :: bs => a == b && hasPrefixL as bs

/-- `strings.HasPrefix`. -/
def hasPrefix (s pre : String) : Bool :=
  hasPrefixL s.data pre.data

/-- `strings.HasSuffix`. -/
def hasSuffix (s suf : String) : Bool :=
  hasPrefixL s.data.reverse suf.data.reverse

/-- The matching step of `(*WebSocket) call` once a payload is taken from the
queue: propagate its error, otherwise accept when the request begins with
"data" or the payload's `cmd` is a suffix of the request. -/
def callMatch {α : Type} (cmd : String) (p : Payload α) : Except String (Option α) :=
  match p.err with
  | some e => Except.error e
  | none =>
    if hasPrefix cmd "data" || hasSuffix cmd p.cmd then Except.ok p.data
    else Except.error "response payload does not match command"

/-- End-to-end synchronous text exchange: the reader decodes the envelope
with `decodeMsgText`, queues `payload{cmd, err, val}`, and `call` matches it
against the outstanding command. -/
def textResponse {α : Type} (cmd : String) (env : Envelope α) : Except String (Option α) :=
  match decodeMsgText env with
  | (c, v, e) => callMatch cmd { cmd := c, err := e, data := v }

/-! ## SHA-1, HMAC and the authentication command -/

/-- Truncation to 32 bits. -/
def w32 (n : Nat) : Nat := n % 4294967296

/-- 32-bit left rotation. -/
def rotl32 (k x : Nat) : Nat :=
  w32 (x <<< k) ||| (x >>> (32 - k))

/-- A 32-bit word as four big-endian bytes. -/
def be4 (n : Nat) : List Nat :=
  [n >>> 24 % 256, n >>> 16 % 256, n >>> 8 % 256, n % 256]

/-- A 64-bit value as eight big-endian bytes (the SHA-1 length field). -/
def be8 (n : Nat) : List Nat :=
  [n >>> 56 % 256, n >>> 48 % 256, n >>> 40 % 256, n >>> 32 % 256,
   n >>> 24 % 256, n >>> 16 % 256, n >>> 8 % 256, n % 256]

/-- SHA-1 round function. -/
def sha1F (i b c d : Nat) : Nat :=
  if i < 20 then (b &&& c) ||| ((b ^^^ 4294967295) &&& d)
  else if i < 40 then b ^^^ c ^^^ d
  else if i < 60 then (b &&& c) ||| (b &&& d) ||| (c &&& d)
  else b ^^^ c ^^^ d

/-- SHA-1 round constants. -/
def sha1K (i : Nat) : Nat :=
  if i < 20 then 1518500249
  else if i < 40 then 1859775393
  else if i < 60 then 2400959708
  else 3395469782

/-- Expand the 16 message words of one block to the 80-entry schedule. -/
def sha1Schedule (ws : Array Nat) : Array Nat :=
  (List.range 64).foldl
    (fun a _ =>
      let s := a.size
      a.push (rotl32 1 (a.getD (s - 3) 0 ^^^ a.getD (s - 8) 0 ^^^
                        a.getD (s - 14) 0 ^^^ a.getD (s - 16) 0)))
    ws

/-- One SHA-1 compression step over a 64-byte block. -/
def sha1Block (h : Nat × Nat × Nat × Nat × Nat) (block : List Nat) :
    Nat × Nat × Nat × Nat × Nat :=
  let w := sha1Schedule ((chunksExact 4 block).map beNat).toArray
  let r := (List.range 80).foldl
    (fun st i =>
      let (a, b, c, d, e) := st
      let temp := w32 (rotl32 5 a + sha1F i b c d + e + sha1K i + w.getD i 0)
      (temp, a, rotl32 30 b, c, d))
    (h.1, h.2.1, h.2.2.1, h.2.2.2.1, h.2.2.2.2)
  (w32 (h.1 + r.1), w32 (h.2.1 + r.2.1), w32 (h.2.2.1 + r.2.2.1),
   w32 (h.2.2.2.1 + r.2.2.2.1), w32 (h.2.2.2.2 + r.2.2.2.2))

/-- Merkle–Damgård padding: 0x80, zeros to 56 mod 64, then the bit length
as a big-endian u64. -/
def sha1Pad (msg : List Nat) : List Nat :=
  msg ++ [128] ++ List.replicate ((119 - msg.length % 64) % 64) 0 ++ be8 (8 * msg.length)

/-- SHA-1 of a byte string (as `crypto/sha1` computes it). -/
def sha1 (msg : List Nat) : List Nat :=
  let hs := (chunksExact 64 (sha1Pad msg)).foldl sha1Block
    (1732584193, 4023233417, 2562383102, 271733878, 3285377520)
  be4 hs.1 ++ be4 hs.2.1 ++ be4 hs.2.2.1 ++ be4 hs.2.2.2.1 ++ be4 hs.2.2.2.2

/-- HMAC over SHA-1 (as `crypto/hmac` with `sha1.New`): over-long keys are
hashed, the key is zero-padded to the 64-byte block size, and the nested
ipad/opad construction is applied. -/
def hmacSha1 (key msg : List Nat) : List Nat :=
  let k0 := if 64 < key.length then sha1 key else key
  let k1 := k0 ++ List.replicate (64 - k0.length) 0
  sha1 ((k1.map (fun b => b ^^^ 92)) ++ sha1 ((k1.map (fun b => b ^^^ 54)) ++ msg))

/-- The value of one hexadecimal character, both cases (as `encoding/hex`
accepts). -/
def hexCharVal (c : Char) : Option Nat :=
  if 48 ≤ c.toNat ∧ c.toNat ≤ 57 then some (c.toNat - 48)
  else if 97 ≤ c.toNat ∧ c.toNat ≤ 102 then some (c.toNat - 87)
  else if 65 ≤ c.toNat ∧ c.toNat ≤ 70 then some (c.toNat - 55)
  else none

/-- `hex.DecodeString` on a character list: pairs of hex digits; odd length
or an invalid character fails. -/
def hexDecodeChars : List Char → Option (List Nat)
  | [] => some []
  | [_] => none
  | a :: b :: rest =>
    match hexCharVal a, hexCharVal b, hexDecodeChars rest with
    | some x, some y, some r => some ((16 * x + y) :: r)
    | _, _, _ => none

/-- `hex.DecodeString`. -/
def hexDecode (s : String) : Option (List Nat) :=
  hexDecodeChars s.data

/-- The bytes of a string (`[]byte(s)`); credentials are ASCII but UTF-8 is
what Go produces in general. -/
def strBytes (s : String) : List Nat :=
  s.toUTF8.toList.map (fun b => b.toNat)

/-- The second command `Authenticate` sends, as a function of the value the
`jdev/sys/getkey` call returned and the credentials: hex-decode the key
(a decode failure aborts before the second `call`), HMAC-SHA1 the
`"username:password"` bytes with it, and build `authenticate/<hex digest>`. -/
def authSecondCommand (getkeyVal username password : String) : Option String :=
  (hexDecode getkeyVal).map (fun key =>
    "authenticate/" ++ hexEncLower (hmacSha1 key (strBytes (username ++ ":" ++ password))))

/-! ## Concrete fixtures -/

/-- The Go zero value of `Status`, with volume 10 for the §8 scenario. -/
def defStatus : Status :=
  { input := "", power := "", sleep := 0, volume := 0, mute := false, maxVolume := 0 }

/-- The Go zero value of `Playback`. -/
def defPlayback : Playback :=
  { input := "", playback := "", «repeat» := "", shuffle := "", play_time := 0,
    total_time := 0, artist := "", album := "", albumart_url := "", track := "" }

/-- A device with id "X" and cached `Status{volume:10, mute:false}` (the §8
reconciliation fixture). -/
def sampleDevice : Device :=
  { id := "X", model := "M", name := "N",
    status := { defStatus with volume := 10 },
    playback := defPlayback, extendedControlBaseURL := "" }

/-- The event `{"device_id":"X","main":{"volume":12}}`. -/
def c1Event : Event :=
  { device_id := some "X",
    main := some { status_updated := none, signal_info_updated := none,
                   input := none, power := none, sleep := none,
                   volume := some 12, mute := none, max_volume := none, unknown := [] },
    netusb := none, extra := [] }

/-- `sampleDevice` after the volume is reconciled to 12. -/
def c1DeviceAfter : Device :=
  { sampleDevice with status := { sampleDevice.status with volume := 12 } }

/-- An event whose `device_id` ("Y") does not match `sampleDevice`. -/
def c3Event : Event :=
  { device_id := some "Y", main := none, netusb := none, extra := [] }

/-- A datagram that parsed to a JSON object with no `device_id` key. -/
def c5NoIdEvent : Event :=
  { device_id := none, main := none, netusb := none, extra := [] }

/-- A datagram naming a device ("Z") absent from the registry. -/
def c5UnknownEvent : Event :=
  { device_id := some "Z", main := none, netusb := none, extra := [] }

/-- The §8 UUID fixture bytes `10 6e 67 73 02 a9 e6 41 ff ff 20 df 2f c4 e7 8a`. -/
def uuidWireBytes : List Nat :=
  [0x10, 0x6e, 0x67, 0x73, 0x02, 0xa9, 0xe6, 0x41,
   0xff, 0xff, 0x20, 0xdf, 0x2f, 0xc4, 0xe7, 0x8a]

/-- The string `decodeUUID` actually renders for `uuidWireBytes`. -/
def uuidWireStr : String := "73676e10-a902-41e6-ffff20df2fc4e78a"

/-- A one-entry text-table payload: UUID ‖ icon-UUID ‖ length 5 ‖ "hello"
(the §8 padding fixture). -/
def c4Payload : List Nat :=
  uuidWireBytes ++ uuidWireBytes ++ [5, 0, 0, 0] ++ [104, 101, 108, 108, 111]

/-- A one-block daytimer payload: UUID ‖ f64 default 0.0 ‖ nr_entries = 1 ‖
one 24-byte entry {mode 2, from 3, to 4, need_activate 1, value 1.0}. -/
def c6Payload : List Nat :=
  uuidWireBytes ++ [0, 0, 0, 0, 0, 0, 0, 0] ++ [1, 0, 0, 0] ++
  ([2, 0, 0, 0] ++ [3, 0, 0, 0] ++ [4, 0, 0, 0] ++ [1, 0, 0, 0] ++
   [0, 0, 0, 0, 0, 0, 0xf0, 0x3f])

/-- The single genuinely decoded entry of `c6Payload`
(1.0 = bit pattern 0x3ff0000000000000). -/
def c6DecodedEntry : DayTimerEntry :=
  { mode := 2, «from» := 3, «to» := 4, needActivate := 1, val := 4607182418800017408 }

/-- The envelope `{"LL":{"Code":"420","control":"dev/sps/enablebinstatusupdate",
"value":"x"}}` for the C8 failing input. -/
def c8Envelope : Envelope JVal :=
  { code := "420", control := "dev/sps/enablebinstatusupdate", value := JVal.str "x" }

/-! ## Helper lemmas -/

/-- Characterisation of the entries `diffFields` emits: exactly the declared
fields whose extracted value changed, carrying the new value. -/
theorem mem_diffFields {σ : Type} (fields : List (String × (σ → JVal))) (a b : σ)
    (k : String) (v : JVal) :
    (k, v) ∈ diffFields fields a b ↔
      ∃ f, f ∈ fields ∧ f.1 = k ∧ f.2 a ≠ f.2 b ∧ f.2 b = v := by
  unfold diffFields
  constructor
  · intro h
    rcases List.mem_map.mp h with ⟨f, hf, heq⟩
    rcases List.mem_filter.mp hf with ⟨hmem, hdec⟩
    have hne : f.2 a ≠ f.2 b := of_decide_eq_true hdec
    cases heq
    exact ⟨f, hmem, rfl, hne, rfl⟩
  · rintro ⟨f, hmem, hk, hne, hv⟩
    apply List.mem_map.mpr
    refine ⟨f, List.mem_filter.mpr ⟨hmem, decide_eq_true hne⟩, ?_⟩
    rw [hk, hv]

/-- Every key `diffDevice` can emit is one of the five json tags of the
`Device` struct. -/
theorem mem_diffDevice_key (a b : Device) (k : String) (v : DiffVal)
    (h : (k, v) ∈ diffDevice a b) :
    k ∈ ["id", "model", "name", "status", "playback"] := by
  by_cases h1 : a.id = b.id <;>
  by_cases h2 : a.model = b.model <;>
  by_cases h3 : a.name = b.name <;>
  by_cases h4 : diffStatus a.status b.status = [] <;>
  by_cases h5 : diffPlayback a.playback b.playback = [] <;>
  simp [diffDevice, h1, h2, h3, h4, h5] at h <;>
  simp only [List.mem_cons, List.not_mem_nil, or_false] <;>
  tauto

/-- Looking up a key in a map it was just deleted from yields nothing. -/
theorem lookup_eraseKey {β : Type} (k : String) (l : List (String × β)) :
    List.lookup k (eraseKey k l) = none := by
  induction l with
  | nil => rfl
  | cons p rest ih =>
    by_cases hp : p.1 = k
    · simpa [eraseKey, List.filter_cons, hp] using ih
    · have hb : (k == p.1) = false := by
        exact beq_eq_false_iff_ne.mpr (fun hk => hp hk.symm)
      simpa [eraseKey, List.filter_cons, hp, List.lookup, hb] using ih

/-- Hex encoding doubles the length. -/
theorem hexEncLower_length (bs : List Nat) : (hexEncLower bs).length = 2 * bs.length := by
  induction bs with
  | nil => rfl
  | cons b rest ih =>
    have h2 : (String.mk [hexDigit (b / 16), hexDigit (b % 16)]).length = 2 := rfl
    simp [hexEncLower, String.length_append, h2, ih]
    omega

/-- SHA-1 digests are 20 bytes. -/
theorem sha1_length (msg : List Nat) : (sha1 msg).length = 20 := by
  simp [sha1, be4]

/-- HMAC-SHA1 digests are 20 bytes. -/
theorem hmacSha1_length (key msg : List Nat) : (hmacSha1 key msg).length = 20 := by
  simp [hmacSha1, sha1_length]

/-! ## Claims -/

/-- Claim C1, counterexample: reconciling `{"device_id":"X","main":{"volume":12}}`
against a device with `Status{volume:10, mute:false}` publishes the diff
keyed `"status"` — the `Device` struct's own json tag — not the vendor wire
key `"main"` the claim states. -/
theorem c1_diff_key_counterexample :
    pubDiff (processEvent sampleDevice c1Event defStatus defPlayback) =
      some ("X", [("status", DiffVal.sub [("volume", JVal.num 12)])]) ∧
    [("status", DiffVal.sub [("volume", JVal.num 12)])] ≠
      [("main", DiffVal.sub [("volume", JVal.num 12)])] := by decide

/-- Claim C1, amended: the reconciliation sets `Status.volume` to 12 and
publishes `{"status":{"volume":12}}` on topic "X"; in general the published
diff is keyed by the `Device` struct's json tags ("status" for `Status`
changes, "playback" for `Playback` changes, plus the identity tags), and a
sub-record diff contains exactly the scalar fields whose value changed,
keyed by their wire names and carrying the new value. -/
theorem c1_amended_reconcile_diff :
    (processEvent sampleDevice c1Event defStatus defPlayback =
      PEResult.ok c1DeviceAfter
        (some ("X", [("status", DiffVal.sub [("volume", JVal.num 12)])])) none)
  ∧ (∀ a b k v, (k, v) ∈ diffDevice a b →
      k ∈ ["id", "model", "name", "status", "playback"])
  ∧ (∀ s t k v, (k, v) ∈ diffStatus s t ↔
      ∃ f, f ∈ statusFields ∧ f.1 = k ∧ f.2 s ≠ f.2 t ∧ f.2 t = v)
  ∧ (∀ p q k v, (k, v) ∈ diffPlayback p q ↔
      ∃ f, f ∈ playbackFields ∧ f.1 = k ∧ f.2 p ≠ f.2 q ∧ f.2 q = v) :=
  ⟨by decide, mem_diffDevice_key,
   fun s t k v => mem_diffFields statusFields s t k v,
   fun p q k v => mem_diffFields playbackFields p q k v⟩

/-- Claim C1, witness: the general key lemma applied at the concrete
reconciled pair of devices. -/
theorem c1_amended_reconcile_diff_witness :
    ("status", DiffVal.sub [("volume", JVal.num 12)]) ∈ diffDevice sampleDevice c1DeviceAfter ∧
    "status" ∈ ["id", "model", "name", "status", "playback"] :=
  ⟨by decide,
   c1_amended_reconcile_diff.2.1 sampleDevice c1DeviceAfter
     "status" (DiffVal.sub [("volume", JVal.num 12)]) (by decide)⟩

/-- Claim C2, counterexample: the decoder renders the fixture bytes as
`73676e10-a902-41e6-ffff20df2fc4e78a` (u16 groups read little-endian:
bytes `02 a9` print `a902`), not the `73676e10-02a9-41e6-…` string the claim
gives, and the tail is one undivided 16-digit run rather than 4-4-12. -/
theorem c2_uuid_counterexample :
    decodeUUID uuidWireBytes = Except.ok uuidWireStr ∧
    (Except.ok uuidWireStr : Except String String) ≠
      Except.ok "73676e10-02a9-41e6-ffff20df2fc4e78a" := by decide

/-- Claim C2, amended: decoding the 16 fixture bytes — a little-endian u32,
two little-endian u16s, then 8 raw bytes — produces
`73676e10-a902-41e6-ffff20df2fc4e78a`, an `8-4-4-16`-grouped lowercase hex
string (the last four-and-twelve groups are not separated). -/
theorem c2_uuid_decode :
    decodeUUID uuidWireBytes = Except.ok "73676e10-a902-41e6-ffff20df2fc4e78a" := by
  decide

/-- Claim C3, counterexample: a mismatched `device_id` makes `processEvent`
panic (terminating the listener goroutine) instead of returning a
recoverable error to its caller. -/
theorem c3_panic_counterexample :
    processEvent sampleDevice c3Event defStatus defPlayback =
      PEResult.panicked "unmatched device id" ∧
    (processEvent sampleDevice c3Event defStatus defPlayback).isOk = false := by decide

/-- Claim C3, amended: for every event whose `device_id` differs from (or
does not reach) the target device's id, the reconciler panics with
"unmatched device id"; nothing is applied, published or returned. -/
theorem c3_amended_panics (d : Device) (e : Event) (fs : Status) (fp : Playback)
    (h : e.device_id ≠ some d.id) :
    processEvent d e fs fp = PEResult.panicked "unmatched device id" := by
  simp [processEvent, h]

/-- Claim C3, witness: the amended theorem at the concrete mismatching pair. -/
theorem c3_amended_panics_witness :
    c3Event.device_id ≠ some sampleDevice.id ∧
    processEvent sampleDevice c3Event defStatus defPlayback =
      PEResult.panicked "unmatched device id" :=
  ⟨by decide, c3_amended_panics sampleDevice c3Event defStatus defPlayback (by decide)⟩

/-- Claim C4, counterexample: the decoder accepts the §8 "hello" payload
(text length 5), and its own advance for it is `36 + 5 + (5 mod 4) = 42`,
which is not a multiple of 4. -/
theorem c4_advance_counterexample :
    decodeTextEventTable c4Payload = ([(uuidWireStr, [104, 101, 108, 108, 111])], none) ∧
    advance 5 = 42 ∧ ¬ (4 ∣ advance 5) := by decide

/-- Claim C4, amended: the text-table advance `36 + len + (len mod 4)` is
always even, and is a multiple of 4 exactly when the text length is even. -/
theorem c4_advance_amended (n : Nat) :
    2 ∣ advance n ∧ (4 ∣ advance n ↔ n % 2 = 0) := by
  unfold advance
  omega

/-- Claim C5, counterexample: a datagram without `device_id` makes the
listener panic on the bare `.(string)` type assertion, and a datagram naming
an unregistered device makes it dereference a nil `*Device` — in both cases
the loop dies instead of dropping the datagram. -/
theorem c5_listener_counterexample :
    dispatch [("X", sampleDevice)] c5NoIdEvent defStatus defPlayback =
      PEResult.panicked "interface conversion: interface {} is nil, not string" ∧
    dispatch [("X", sampleDevice)] c5UnknownEvent defStatus defPlayback =
      PEResult.panicked "invalid memory address or nil pointer dereference" ∧
    (dispatch [("X", sampleDevice)] c5NoIdEvent defStatus defPlayback).isOk = false := by
  decide

/-- Claim C5, amended: for every registry and datagram, a missing
`device_id` panics the listener via the failed interface conversion, and an
unknown `device_id` panics it via the nil-pointer dereference inside the
reconciler; the loop terminates in both cases. -/
theorem c5_amended_panics (registry : List (String × Device)) (e : Event)
    (fs : Status) (fp : Playback) :
    (e.device_id = none →
      dispatch registry e fs fp =
        PEResult.panicked "interface conversion: interface {} is nil, not string")
  ∧ (∀ did, e.device_id = some did → List.lookup did registry = none →
      dispatch registry e fs fp =
        PEResult.panicked "invalid memory address or nil pointer dereference") := by
  constructor
  · intro h
    simp [dispatch, h]
  · intro did h1 h2
    simp [dispatch, h1, h2]

/-- Claim C5, witness: both amended branches at concrete datagrams against
an empty registry. -/
theorem c5_amended_panics_witness :
    (c5NoIdEvent.device_id = none ∧
      dispatch [] c5NoIdEvent defStatus defPlayback =
        PEResult.panicked "interface conversion: interface {} is nil, not string")
  ∧ (c5UnknownEvent.device_id = some "Z" ∧
      List.lookup "Z" ([] : List (String × Device)) = none ∧
      dispatch [] c5UnknownEvent defStatus defPlayback =
        PEResult.panicked "invalid memory address or nil pointer dereference") :=
  ⟨⟨rfl, (c5_amended_panics [] c5NoIdEvent defStatus defPlayback).1 rfl⟩,
   ⟨rfl, rfl, (c5_amended_panics [] c5UnknownEvent defStatus defPlayback).2 "Z" rfl rfl⟩⟩

/-- Claim C6, evidence of the code bug: the daytimer payload declares
`nr_entries = 1` and carries one 24-byte entry (four little-endian i32s and
the f64 value, decoded correctly), yet the stored event holds two entries —
the pre-sized zero entry from `make([]DayTimerEntry, nrEntries)` followed by
the `append`ed decoded one. -/
theorem c6_daytimer_evidence :
    decodeDaytimerEventTable c6Payload =
      Except.ok [(uuidWireStr,
        { defaultVal := 0, entries := [zeroDayTimerEntry, c6DecodedEntry] })] ∧
    toI32 (leNat ((c6Payload.drop 24).take 4)) = 1 ∧
    [zeroDayTimerEntry, c6DecodedEntry].length ≠ 1 := by decide

/-- Claim C7: whenever the `getkey` value hex-decodes, the second command
`Authenticate` sends is `authenticate/` followed by the lowercase hex
encoding of HMAC-SHA1 keyed with the decoded bytes over
`username:password`; the digest part is 40 hex characters. -/
theorem c7_auth_command (username password keyHex : String) (keyBytes : List Nat)
    (h : hexDecode keyHex = some keyBytes) :
    authSecondCommand keyHex username password =
      some ("authenticate/" ++
        hexEncLower (hmacSha1 keyBytes (strBytes (username ++ ":" ++ password))))
    ∧ (hexEncLower (hmacSha1 keyBytes (strBytes (username ++ ":" ++ password)))).length = 40 := by
  constructor
  · simp [authSecondCommand, h]
  · rw [hexEncLower_length, hmacSha1_length]

/-- Claim C7, witness: the §8 fixture — key `"abcd"`, credentials
`user` / `pass`. -/
theorem c7_auth_command_witness :
    hexDecode "abcd" = some [171, 205] ∧
    (authSecondCommand "abcd" "user" "pass" =
      some ("authenticate/" ++
        hexEncLower (hmacSha1 [171, 205] (strBytes ("user" ++ ":" ++ "pass"))))
    ∧ (hexEncLower (hmacSha1 [171, 205] (strBytes ("user" ++ ":" ++ "pass")))).length = 40) :=
  ⟨by decide, c7_auth_command "user" "pass" "abcd" [171, 205] (by decide)⟩

/-- Claim C8, evidence of the code bug: a `Code:"420"` envelope answering
`jdev/sps/enablebinstatusupdate` makes the synchronous call return success
with a nil value instead of an error — `decodeMsgText`'s inner
`code, err := strconv.Atoi(...)` shadows its named return, so the non-200
error is discarded, and the emptied `cmd` suffix-matches every command.
A well-matched 200 envelope and a mismatched control behave as claimed. -/
theorem c8_call_evidence :
    textResponse "jdev/sps/enablebinstatusupdate" c8Envelope = Except.ok none ∧
    atoi "420" = Except.ok 420 ∧
    textResponse "jdev/sys/getkey"
      ({ code := "200", control := "dev/sys/getkey", value := JVal.str "k" } : Envelope JVal) =
      Except.ok (some (JVal.str "k")) ∧
    textResponse "jdev/sys/getkey"
      ({ code := "200", control := "other/control", value := JVal.str "k" } : Envelope JVal) =
      Except.error "response payload does not match command" := by decide

/-- Claim C9: whatever map a MusicCast HTTP envelope decodes to, if
`decodeResponse` returns (rather than panicking on a missing or non-numeric
code), the data handed back no longer contains `response_code` — on the
success path and on the non-zero extended-control-error path alike. -/
theorem c9_response_code_removed (data out : List (String × RVal)) (e : Option String)
    (h : decodeResponse data = DRResult.ok out e) :
    List.lookup "response_code" out = none := by
  cases hl : List.lookup "response_code" data with
  | none => simp [decodeResponse, hl] at h
  | some v =>
    cases v with
    | num n =>
      simp only [decodeResponse, hl] at h
      cases h
      exact lookup_eraseKey "response_code" data
    | str s => simp [decodeResponse, hl] at h
    | bool b => simp [decodeResponse, hl] at h
    | other => simp [decodeResponse, hl] at h

/-- Claim C9, witness: a non-zero code envelope — the error is reported and
the returned map has no `response_code`. -/
theorem c9_response_code_removed_witness :
    decodeResponse [("response_code", RVal.num 2), ("volume", RVal.num 10)] =
      DRResult.ok [("volume", RVal.num 10)] (some "extended control error") ∧
    List.lookup "response_code" [("volume", RVal.num 10)] = none :=
  ⟨by decide,
   c9_response_code_removed [("response_code", RVal.num 2), ("volume", RVal.num 10)]
     [("volume", RVal.num 10)] (some "extended control error") (by decide)⟩
